import Mathlib

/-!
Shallow embedding of the openship order-routing and fulfillment engine
(src/.keystone/config.js) together with proofs about its behaviour.

Each namespace embeds one slice of the engine:

* `Openship.Place`    — `updateCartItems`, `placeMultipleOrders` and `cancelOrder`
* `Openship.GetM`     — `getMatches` (match resolution used by `addMatchToCart`)
* `Openship.MatchH`   — the `Match` list `resolveInput` hook (duplicate check)
* `Openship.Tracking` — the `TrackingDetail` `afterOperation` hook
* `Openship.LinkM`    — the `Order` `afterOperation` link routing and the
                        `Link` `beforeOperation` rank assignment
* `Openship.MOrd`     — the `matchOrder` mutation

Statuses are modelled as an enumeration mirroring the string values
"PENDING", "AWAITING", "COMPLETE", "CANCELLED" used by the code.
-/

namespace Openship

/-- Order / CartItem status values used by the engine. -/
inductive Status where
  | PENDING
  | AWAITING
  | COMPLETE
  | CANCELLED
deriving DecidableEq, Repr

namespace Place

/-- The placement-relevant fields of a CartItem row. -/
structure CartItem where
  id : Nat
  orderId : Nat
  channelId : Nat
  purchaseId : String
  url : String
  error : String
  status : Status
deriving DecidableEq, Repr

/-- The persisted state `placeMultipleOrders` reads and writes for one order:
the order's status and the CartItem table (items of other orders included). -/
structure PState where
  orderStatus : Status
  cartItems : List CartItem
deriving DecidableEq, Repr

/-- The JSON result of a `createPurchaseFunction` adapter call; absent fields
are modelled as the empty string, matching the code's truthiness tests. -/
structure PurchaseRes where
  error : String
  purchaseId : String
  url : String
deriving DecidableEq, Repr

/-- Outcome of one create-purchase adapter invocation: a returned result or a
thrown exception with a message. -/
inductive AdapterOutcome where
  | ok (res : PurchaseRes)
  | exn (msg : String)
deriving DecidableEq, Repr

/-- Observable external calls issued during a placement run. -/
inductive Ev where
  | createPurchase (channelId : Nat) (itemIds : List Nat)
  | addCartToPlatformOrder (succeeded : Bool)
deriving DecidableEq, Repr

/-- Embedding of `updateCartItems` (config.js:4110): every listed CartItem gets
its `url`, `error` and `purchaseId` fields overwritten (absent call arguments
default to the empty string in the source). -/
def updateCartItems (st : PState) (sel : List CartItem)
    (url error purchaseId : String) : PState :=
  { st with
    cartItems := st.cartItems.map fun c =>
      if sel.any fun s => s.id == c.id then
        { c with url := url, error := error, purchaseId := purchaseId }
      else c }

/-- The CartItem sub-selection of the `Channel.findMany` query in
`placeMultipleOrders` (config.js:4184): items of the order with empty
`purchaseId` and empty `url`.  No status condition appears in the source. -/
def unplacedFor (cartItems : List CartItem) (orderId channelId : Nat) :
    List CartItem :=
  cartItems.filter fun c =>
    decide (c.orderId = orderId ∧ c.channelId = channelId ∧
      c.purchaseId = "" ∧ c.url = "")

/-- The recount query of `placeMultipleOrders` (config.js:4280): CartItems of
the order with empty `url` and empty `purchaseId`. -/
def unplacedCount (st : PState) (orderId : Nat) : Nat :=
  (st.cartItems.filter fun c =>
    decide (c.orderId = orderId ∧ c.url = "" ∧ c.purchaseId = "")).length

/-- The error annotation used on a thrown exception (config.js:4276). -/
def orderPlacementExnMsg (msg : String) : String :=
  "ORDER_PLACEMENT_ERROR: " ++
    (if msg = "" then "Error on order placement. Order may have been placed."
     else msg)

/-- The try/catch body of `placeMultipleOrders` for one fulfillment target
(config.js:4239): on a result carrying `error`, annotate the items; on a
result carrying `purchaseId`, record `url`/`purchaseId`; on an exception,
annotate conservatively. -/
def attemptChannel (outcome : AdapterOutcome) (sel : List CartItem)
    (st : PState) : PState :=
  match outcome with
  | .ok res =>
    let st1 :=
      if res.error ≠ "" then
        updateCartItems st sel "" ("ORDER_PLACEMENT_ERROR: " ++ res.error) ""
      else st
    if res.purchaseId ≠ "" then
      updateCartItems st1 sel res.url "" res.purchaseId
    else st1
  | .exn msg => updateCartItems st sel "" (orderPlacementExnMsg msg) ""

/-- The recount-and-status step after one target (config.js:4280): zero
unplaced items advances the order to AWAITING and invokes the storefront's
add-cart-to-platform-order operation (its failure is caught and only logged);
otherwise the order is set to PENDING. -/
def recountStep (orderId : Nat) (addCartOk : Bool) (st : PState) :
    PState × List Ev :=
  if unplacedCount st orderId = 0 then
    ({ st with orderStatus := Status.AWAITING },
     [Ev.addCartToPlatformOrder addCartOk])
  else
    ({ st with orderStatus := Status.PENDING }, [])

/-- The loop of `placeMultipleOrders` over the fulfillment targets that have
at least one unplaced CartItem, threading state and logging external calls. -/
def runChannels (adapter : Nat → AdapterOutcome) (orderId : Nat)
    (addCartOk : Bool) :
    List (Nat × List CartItem) → PState → PState × List Ev
  | [], st => (st, [])
  | p :: rest, st =>
    let st1 := attemptChannel (adapter p.1) p.2 st
    let r2 := recountStep orderId addCartOk st1
    let r3 := runChannels adapter orderId addCartOk rest r2.1
    (r3.1, Ev.createPurchase p.1 (p.2.map (·.id)) :: (r2.2 ++ r3.2))

/-- The per-target selections computed up front by the `Channel.findMany`
query, keeping only channels with a nonempty selection (config.js:4211). -/
def placementSelections (channels : List Nat) (orderId : Nat) (st : PState) :
    List (Nat × List CartItem) :=
  (channels.map fun ch => (ch, unplacedFor st.cartItems orderId ch)).filter
    fun p => decide (p.2 ≠ [])

/-- Embedding of `placeMultipleOrders` (config.js:4133) specialised to a
single order id: select the unplaced items per channel, then process each
channel with a nonempty selection. -/
def placeMultipleOrders (adapter : Nat → AdapterOutcome) (addCartOk : Bool)
    (channels : List Nat) (orderId : Nat) (st : PState) : PState × List Ev :=
  runChannels adapter orderId addCartOk
    (placementSelections channels orderId st) st

/-- Embedding of `cancelOrder` (config.js:6786): set the order's status to
CANCELLED and the status of each of its CartItems to CANCELLED; `purchaseId`
and `url` are not touched. -/
def cancelOrder (orderId : Nat) (st : PState) : PState :=
  { orderStatus := Status.CANCELLED,
    cartItems := st.cartItems.map fun c =>
      if c.orderId = orderId then { c with status := Status.CANCELLED }
      else c }

/-- Pointwise effect of one channel attempt on a single CartItem row. -/
def applyOutcome (o : AdapterOutcome) (sel : List CartItem) (c : CartItem) :
    CartItem :=
  if sel.any fun s => s.id == c.id then
    match o with
    | .ok res =>
      if res.purchaseId ≠ "" then
        { c with url := res.url, error := "", purchaseId := res.purchaseId }
      else if res.error ≠ "" then
        { c with
          url := "",
          error := "ORDER_PLACEMENT_ERROR: " ++ res.error,
          purchaseId := "" }
      else c
    | .exn msg =>
      { c with url := "", error := orderPlacementExnMsg msg, purchaseId := "" }
  else c

lemma applyOutcome_of_not_selected (o : AdapterOutcome) (sel : List CartItem)
    (c : CartItem) (h : (sel.any fun s => s.id == c.id) = false) :
    applyOutcome o sel c = c := by
  simp [applyOutcome, h]

lemma attemptChannel_cartItems (o : AdapterOutcome) (sel : List CartItem)
    (st : PState) :
    (attemptChannel o sel st).cartItems = st.cartItems.map (applyOutcome o sel) := by
  have hpoint : ∀ (l : List CartItem) (f g : CartItem → CartItem),
      (∀ c, f c = g c) → l.map f = l.map g :=
    fun l f g h => List.map_congr_left fun c _ => h c
  cases o with
  | ok res =>
    by_cases hp : res.purchaseId = ""
    · by_cases he : res.error = ""
      · simp only [attemptChannel, hp, he, ne_eq, not_true_eq_false,
          ite_false, if_false]
        refine Eq.symm ((hpoint _ _ id ?_).trans (List.map_id _))
        intro c
        by_cases hc : (sel.any fun s => s.id == c.id) = true <;>
          simp [applyOutcome, hc, hp, he]
      · simp only [attemptChannel, updateCartItems, hp, he, ne_eq,
          not_true_eq_false, not_false_eq_true, ite_true, ite_false,
          if_true, if_false]
        refine hpoint _ _ _ ?_
        intro c
        by_cases hc : (sel.any fun s => s.id == c.id) = true <;>
          simp [applyOutcome, hc, hp, he]
    · by_cases he : res.error = ""
      · simp only [attemptChannel, updateCartItems, hp, he, ne_eq,
          not_true_eq_false, not_false_eq_true, ite_true, ite_false,
          if_true, if_false]
        refine hpoint _ _ _ ?_
        intro c
        by_cases hc : (sel.any fun s => s.id == c.id) = true <;>
          simp [applyOutcome, hc, hp, he]
      · simp only [attemptChannel, updateCartItems, hp, he, ne_eq,
          not_true_eq_false, not_false_eq_true, ite_true, ite_false,
          if_true, if_false, List.map_map]
        refine hpoint _ _ _ ?_
        intro c
        by_cases hc : (sel.any fun s => s.id == c.id) = true <;>
          simp [Function.comp, applyOutcome, hc, hp, he]
  | exn msg =>
    simp only [attemptChannel, updateCartItems]
    refine hpoint _ _ _ ?_
    intro c
    by_cases hc : (sel.any fun s => s.id == c.id) = true <;>
      simp [applyOutcome, hc]

lemma attemptChannel_orderStatus (o : AdapterOutcome) (sel : List CartItem)
    (st : PState) :
    (attemptChannel o sel st).orderStatus = st.orderStatus := by
  cases o with
  | ok res =>
    by_cases hp : res.purchaseId = "" <;> by_cases he : res.error = "" <;>
      simp [attemptChannel, updateCartItems, hp, he]
  | exn msg => simp [attemptChannel, updateCartItems]

lemma recountStep_no_createPurchase (orderId : Nat) (addCartOk : Bool)
    (st : PState) (ch : Nat) (ids : List Nat) :
    Ev.createPurchase ch ids ∉ (recountStep orderId addCartOk st).2 := by
  simp only [recountStep]
  split <;> simp

lemma recountStep_cartItems (orderId : Nat) (addCartOk : Bool) (st : PState) :
    (recountStep orderId addCartOk st).1.cartItems = st.cartItems := by
  simp only [recountStep]
  split <;> rfl

/-- Every create-purchase call logged by the channel loop stems from one of
the given per-channel selections, with exactly that selection's item ids. -/
lemma runChannels_event_origin (adapter : Nat → AdapterOutcome) (orderId : Nat)
    (addCartOk : Bool) :
    ∀ (sels : List (Nat × List CartItem)) (st : PState) (ch : Nat)
      (ids : List Nat),
      Ev.createPurchase ch ids ∈
        (runChannels adapter orderId addCartOk sels st).2 →
      ∃ sel, (ch, sel) ∈ sels ∧ ids = sel.map (·.id)
  | [], st, ch, ids => by simp [runChannels]
  | p :: rest, st, ch, ids => by
    intro hmem
    simp only [runChannels, List.mem_cons, List.mem_append,
      Ev.createPurchase.injEq] at hmem
    rcases hmem with ⟨h1, h2⟩ | hin | hrest
    · exact ⟨p.2, by simp [h1], h2⟩
    · exact absurd hin (recountStep_no_createPurchase _ _ _ _ _)
    · obtain ⟨sel, hsel, hids⟩ :=
        runChannels_event_origin adapter orderId addCartOk rest _ ch ids hrest
      exact ⟨sel, List.mem_cons_of_mem _ hsel, hids⟩

/-- A CartItem whose id occurs in none of the selections passes through the
channel loop unchanged. -/
lemma runChannels_untouched (adapter : Nat → AdapterOutcome) (orderId : Nat)
    (addCartOk : Bool) :
    ∀ (sels : List (Nat × List CartItem)) (st : PState) (c : CartItem),
      c ∈ st.cartItems →
      (∀ p ∈ sels, ((p.2.any fun s => s.id == c.id) = false)) →
      c ∈ (runChannels adapter orderId addCartOk sels st).1.cartItems
  | [], st, c => by
    intro hc _
    simpa [runChannels] using hc
  | p :: rest, st, c => by
    intro hc hnot
    simp only [runChannels]
    refine runChannels_untouched adapter orderId addCartOk rest _ c ?_ ?_
    · rw [recountStep_cartItems, attemptChannel_cartItems]
      refine List.mem_map.mpr ⟨c, hc, ?_⟩
      exact applyOutcome_of_not_selected _ _ _ (hnot _ (List.mem_cons_self _ _))
    · intro q hq
      exact hnot q (List.mem_cons_of_mem _ hq)

/-- An adapter outcome that carries a decision: a thrown exception, or a
result with an `error` or a `purchaseId` field present. -/
def Decisive : AdapterOutcome → Prop
  | .ok res => res.error ≠ "" ∨ res.purchaseId ≠ ""
  | .exn _ => True

/-- The per-item outcome dichotomy claimed by the spec: either placed with no
error, or unplaced with an `ORDER_PLACEMENT_ERROR:`-prefixed error. -/
def goodOutcome (c : CartItem) : Prop :=
  (c.purchaseId ≠ "" ∧ c.error = "") ∨
  (c.purchaseId = "" ∧ c.error ≠ "" ∧
    ∃ t, c.error = "ORDER_PLACEMENT_ERROR: " ++ t)

lemma placementMsg_ne_empty (t : String) :
    "ORDER_PLACEMENT_ERROR: " ++ t ≠ "" := by
  intro h
  have hlen := congrArg String.length h
  rw [String.length_append] at hlen
  have h23 : ("ORDER_PLACEMENT_ERROR: " : String).length = 23 := rfl
  have h0 : ("" : String).length = 0 := rfl
  omega

lemma applyOutcome_id (o : AdapterOutcome) (sel : List CartItem)
    (c : CartItem) : (applyOutcome o sel c).id = c.id := by
  cases o with
  | ok res =>
    by_cases hc : (sel.any fun s => s.id == c.id) = true <;>
      by_cases hp : res.purchaseId = "" <;>
      by_cases he : res.error = "" <;>
      simp [applyOutcome, hc, hp, he]
  | exn msg =>
    by_cases hc : (sel.any fun s => s.id == c.id) = true <;>
      simp [applyOutcome, hc]

lemma applyOutcome_good (o : AdapterOutcome) (sel : List CartItem)
    (c : CartItem) (hdec : Decisive o)
    (hc : (sel.any fun s => s.id == c.id) = true) :
    goodOutcome (applyOutcome o sel c) := by
  cases o with
  | ok res =>
    by_cases hp : res.purchaseId = ""
    · have he : res.error ≠ "" := by
        rcases hdec with h | h
        · exact h
        · exact absurd hp h
      have hval : applyOutcome (AdapterOutcome.ok res) sel c =
          { c with
            url := "",
            error := "ORDER_PLACEMENT_ERROR: " ++ res.error,
            purchaseId := "" } := by
        simp [applyOutcome, hc, hp, he]
      rw [hval]
      right
      exact ⟨rfl, placementMsg_ne_empty _, res.error, rfl⟩
    · have hval : applyOutcome (AdapterOutcome.ok res) sel c =
          { c with
            url := res.url,
            error := "",
            purchaseId := res.purchaseId } := by
        simp [applyOutcome, hc, hp]
      rw [hval]
      left
      exact ⟨hp, rfl⟩
  | exn msg =>
    have hval : applyOutcome (AdapterOutcome.exn msg) sel c =
        { c with
          url := "",
          error := orderPlacementExnMsg msg,
          purchaseId := "" } := by
      simp [applyOutcome, hc]
    rw [hval]
    right
    refine ⟨rfl, ?_, ?_⟩
    · show orderPlacementExnMsg msg ≠ ""
      unfold orderPlacementExnMsg
      exact placementMsg_ne_empty _
    · exact ⟨_, rfl⟩

/-- Invariant propagation through the channel loop: every CartItem whose id
was selected by a processed channel ends in a `goodOutcome` state, provided
every adapter outcome is decisive. -/
lemma runChannels_good (adapter : Nat → AdapterOutcome) (orderId : Nat)
    (addCartOk : Bool) (hdec : ∀ ch, Decisive (adapter ch)) :
    ∀ (sels : List (Nat × List CartItem)) (st : PState) (done : List Nat),
      (∀ c ∈ st.cartItems, c.id ∈ done → goodOutcome c) →
      ∀ c ∈ (runChannels adapter orderId addCartOk sels st).1.cartItems,
        (c.id ∈ done ∨ ∃ q ∈ sels, c.id ∈ q.2.map (·.id)) → goodOutcome c
  | [], st, done => by
    intro hinv c hc hid
    simp only [runChannels] at hc
    rcases hid with h | ⟨q, hq, _⟩
    · exact hinv c hc h
    · exact absurd hq (List.not_mem_nil q)
  | p :: rest, st, done => by
    intro hinv c hc hid
    simp only [runChannels] at hc
    refine runChannels_good adapter orderId addCartOk hdec rest _
      (done ++ p.2.map (·.id)) ?_ c hc ?_
    · intro c2 hc2 hid2
      rw [recountStep_cartItems, attemptChannel_cartItems] at hc2
      obtain ⟨c0, hc0, rfl⟩ := List.mem_map.mp hc2
      rw [applyOutcome_id] at hid2
      by_cases hsel : (p.2.any fun s => s.id == c0.id) = true
      · exact applyOutcome_good _ _ _ (hdec p.1) hsel
      · have hfalse : (p.2.any fun s => s.id == c0.id) = false := by
          simpa using hsel
        rw [applyOutcome_of_not_selected _ _ _ hfalse]
        rcases List.mem_append.mp hid2 with h | h
        · exact hinv c0 hc0 h
        · exfalso
          obtain ⟨s, hs, hsid⟩ := List.mem_map.mp h
          have : (p.2.any fun s => s.id == c0.id) = true :=
            List.any_eq_true.mpr ⟨s, hs, by simp [hsid]⟩
          rw [hfalse] at this
          cases this
    · rcases hid with h | ⟨q, hq, hqid⟩
      · exact Or.inl (List.mem_append.mpr (Or.inl h))
      · rcases List.mem_cons.mp hq with rfl | hq2
        · exact Or.inl (List.mem_append.mpr (Or.inr hqid))
        · exact Or.inr ⟨q, hq2, hqid⟩

lemma placementSelections_mem (channels : List Nat) (orderId : Nat)
    (st : PState) (p : Nat × List CartItem)
    (hp : p ∈ placementSelections channels orderId st) :
    p.1 ∈ channels ∧ p.2 = unplacedFor st.cartItems orderId p.1 := by
  simp only [placementSelections, List.mem_filter, List.mem_map] at hp
  obtain ⟨⟨ch0, hch0, heq⟩, _⟩ := hp
  cases heq
  exact ⟨hch0, rfl⟩

lemma unplacedFor_mem (cartItems : List CartItem) (orderId channelId : Nat)
    (s : CartItem) (hs : s ∈ unplacedFor cartItems orderId channelId) :
    s ∈ cartItems ∧ s.orderId = orderId ∧ s.channelId = channelId ∧
      s.purchaseId = "" ∧ s.url = "" := by
  have h := List.mem_filter.mp hs
  exact ⟨h.1, of_decide_eq_true h.2⟩

lemma recountStep_fst_flag (orderId : Nat) (a b : Bool) (st : PState) :
    (recountStep orderId a st).1 = (recountStep orderId b st).1 := by
  by_cases h : unplacedCount st orderId = 0 <;> simp [recountStep, h]

lemma runChannels_fst_flag (adapter : Nat → AdapterOutcome) (orderId : Nat)
    (a b : Bool) :
    ∀ (sels : List (Nat × List CartItem)) (st : PState),
      (runChannels adapter orderId a sels st).1 =
        (runChannels adapter orderId b sels st).1
  | [], st => rfl
  | p :: rest, st => by
    simp only [runChannels]
    rw [recountStep_fst_flag orderId a b]
    exact runChannels_fst_flag adapter orderId a b rest _

/-- After a nonempty channel loop, the order's status is AWAITING exactly
when the final recount of unplaced items is zero, and reaching AWAITING
implies the add-cart-to-platform-order call was made. -/
lemma runChannels_final_status (adapter : Nat → AdapterOutcome)
    (orderId : Nat) (addCartOk : Bool) :
    ∀ (sels : List (Nat × List CartItem)) (st : PState), sels ≠ [] →
      (runChannels adapter orderId addCartOk sels st).1.orderStatus =
        (if unplacedCount (runChannels adapter orderId addCartOk sels st).1
            orderId = 0
         then Status.AWAITING else Status.PENDING) ∧
      ((runChannels adapter orderId addCartOk sels st).1.orderStatus =
          Status.AWAITING →
        Ev.addCartToPlatformOrder addCartOk ∈
          (runChannels adapter orderId addCartOk sels st).2)
  | [], _, hne => absurd rfl hne
  | [p], st, _ => by
    simp only [runChannels]
    by_cases h : unplacedCount (attemptChannel (adapter p.1) p.2 st) orderId = 0
    · have hr : recountStep orderId addCartOk
          (attemptChannel (adapter p.1) p.2 st) =
          ({ attemptChannel (adapter p.1) p.2 st with
             orderStatus := Status.AWAITING },
           [Ev.addCartToPlatformOrder addCartOk]) := by
        simp [recountStep, h]
      simp only [hr]
      constructor
      · have h2 : unplacedCount
            { attemptChannel (adapter p.1) p.2 st with
              orderStatus := Status.AWAITING } orderId = 0 := h
        simp [h2]
      · intro _
        simp
    · have hr : recountStep orderId addCartOk
          (attemptChannel (adapter p.1) p.2 st) =
          ({ attemptChannel (adapter p.1) p.2 st with
             orderStatus := Status.PENDING }, []) := by
        simp [recountStep, h]
      simp only [hr]
      constructor
      · have h2 : unplacedCount
            { attemptChannel (adapter p.1) p.2 st with
              orderStatus := Status.PENDING } orderId =
            unplacedCount (attemptChannel (adapter p.1) p.2 st) orderId := rfl
        simp [h2, h]
      · intro habs
        simp at habs
  | p :: q :: rest, st, _ => by
    have IH := runChannels_final_status adapter orderId addCartOk (q :: rest)
      (recountStep orderId addCartOk
        (attemptChannel (adapter p.1) p.2 st)).1 (by simp)
    simp only [runChannels] at IH ⊢
    refine ⟨IH.1, ?_⟩
    intro hA
    exact List.mem_cons_of_mem _ (List.mem_append_right _ (IH.2 hA))

/-- Concrete state for C2: one unplaced PENDING CartItem of order 10. -/
def c2state : PState :=
  ⟨Status.PENDING, [⟨1, 10, 1, "", "", "", Status.PENDING⟩]⟩

/-- Concrete adapter for C2: always succeeds with a purchase id. -/
def c2adapter : Nat → AdapterOutcome := fun _ => .ok ⟨"", "pid-1", "u-1"⟩

/-- C2 counterexample: after `cancelOrder` marks the order's only CartItem
CANCELLED (leaving `purchaseId`/`url` empty), a later `placeMultipleOrders`
run still issues a create-purchase call naming that item, because the
selection filters only on `purchaseId` and `url`, never on status. -/
theorem cancelOrder_then_place_attempts_cancelled_cex :
    (cancelOrder 10 c2state).cartItems =
      [⟨1, 10, 1, "", "", "", Status.CANCELLED⟩] ∧
    Ev.createPurchase 1 [1] ∈
      (placeMultipleOrders c2adapter true [1] 10 (cancelOrder 10 c2state)).2 := by
  decide

/-- C2 (amended): `placeMultipleOrders` selects only CartItems that are
unplaced (`purchaseId` empty, `url` empty) — with no condition on status —
so every item named in a create-purchase call was unplaced at the start of
the run. -/
theorem placement_selects_only_unplaced (adapter : Nat → AdapterOutcome)
    (addCartOk : Bool) (channels : List Nat) (orderId : Nat) (st : PState)
    (ch : Nat) (ids : List Nat)
    (hev : Ev.createPurchase ch ids ∈
      (placeMultipleOrders adapter addCartOk channels orderId st).2) :
    ∀ i ∈ ids, ∃ c ∈ st.cartItems,
      c.id = i ∧ c.orderId = orderId ∧ c.channelId = ch ∧
      c.purchaseId = "" ∧ c.url = "" := by
  obtain ⟨sel, hsel, hids⟩ := runChannels_event_origin adapter orderId
    addCartOk _ st ch ids hev
  obtain ⟨-, hpeq⟩ := placementSelections_mem channels orderId st (ch, sel) hsel
  have hseleq : sel = unplacedFor st.cartItems orderId ch := hpeq
  intro i hi
  rw [hids] at hi
  obtain ⟨s, hs, hsid⟩ := List.mem_map.mp hi
  rw [hseleq] at hs
  obtain ⟨hsmem, h1, h2, h3, h4⟩ := unplacedFor_mem _ _ _ _ hs
  exact ⟨s, hsmem, hsid, h1, h2, h3, h4⟩

/-- Witness for the C2 amended theorem at a concrete input. -/
theorem placement_selects_only_unplaced_witness :
    Ev.createPurchase 1 [1] ∈
      (placeMultipleOrders c2adapter true [1] 10 c2state).2 ∧
    (∀ i ∈ ([1] : List Nat), ∃ c ∈ c2state.cartItems,
      c.id = i ∧ c.orderId = 10 ∧ c.channelId = 1 ∧
      c.purchaseId = "" ∧ c.url = "") :=
  ⟨by decide,
   placement_selects_only_unplaced c2adapter true [1] 10 c2state 1 [1]
     (by decide)⟩

/-- Concrete state for C3: one unplaced PENDING CartItem of order 10. -/
def c3state : PState :=
  ⟨Status.PENDING, [⟨1, 10, 1, "", "", "", Status.PENDING⟩]⟩

/-- Concrete adapter for C3: returns a result carrying neither an `error`
nor a `purchaseId` field. -/
def c3adapter : Nat → AdapterOutcome := fun _ => .ok ⟨"", "", ""⟩

/-- C3 counterexample: when the create-purchase adapter returns a result
with neither `error` nor `purchaseId`, the attempted CartItem is left with
both fields empty — the claimed dichotomy fails for that attempt. -/
theorem placement_outcome_both_empty_cex :
    Ev.createPurchase 1 [1] ∈
      (placeMultipleOrders c3adapter true [1] 10 c3state).2 ∧
    (placeMultipleOrders c3adapter true [1] 10 c3state).1.cartItems =
      [⟨1, 10, 1, "", "", "", Status.PENDING⟩] := by
  decide

/-- C3 (amended): provided every adapter outcome is decisive (an exception,
or a result carrying an `error` or a `purchaseId`), every CartItem named in
a create-purchase call ends the run with exactly one of `purchaseId` set and
`error` empty, or `purchaseId` empty and `error` set with the
`ORDER_PLACEMENT_ERROR:` prefix. -/
theorem placement_outcome_dichotomy (adapter : Nat → AdapterOutcome)
    (addCartOk : Bool) (channels : List Nat) (orderId : Nat) (st : PState)
    (hdec : ∀ ch2, Decisive (adapter ch2)) (ch : Nat) (ids : List Nat)
    (c : CartItem)
    (hev : Ev.createPurchase ch ids ∈
      (placeMultipleOrders adapter addCartOk channels orderId st).2)
    (hc : c ∈
      (placeMultipleOrders adapter addCartOk channels orderId st).1.cartItems)
    (hid : c.id ∈ ids) : goodOutcome c := by
  obtain ⟨sel, hsel, hids⟩ := runChannels_event_origin adapter orderId
    addCartOk (placementSelections channels orderId st) st ch ids hev
  refine runChannels_good adapter orderId addCartOk hdec
    (placementSelections channels orderId st) st [] (by simp) c hc ?_
  exact Or.inr ⟨(ch, sel), hsel, hids ▸ hid⟩

/-- Concrete decisive adapter for the C3 witness. -/
def c3wadapter : Nat → AdapterOutcome := fun _ => .ok ⟨"", "p-1", "u-1"⟩

/-- Witness for the C3 amended theorem at a concrete input. -/
theorem placement_outcome_dichotomy_witness :
    (∀ ch2, Decisive (c3wadapter ch2)) ∧
    goodOutcome ⟨1, 10, 1, "p-1", "u-1", "", Status.PENDING⟩ :=
  ⟨fun _ => Or.inr (by decide),
   placement_outcome_dichotomy c3wadapter true [1] 10 c3state
     (fun _ => Or.inr (by decide)) 1 [1]
     ⟨1, 10, 1, "p-1", "u-1", "", Status.PENDING⟩
     (by decide) (by decide) (by decide)⟩

/-- C4: an already-placed CartItem (`purchaseId` and `url` nonempty) is never
named in a create-purchase call of a placement run, and its row survives the
run unchanged (under unique CartItem ids). -/
theorem placement_idempotent_on_placed (adapter : Nat → AdapterOutcome)
    (addCartOk : Bool) (channels : List Nat) (orderId : Nat) (st : PState)
    (c : CartItem) (hnd : (st.cartItems.map (·.id)).Nodup)
    (hc : c ∈ st.cartItems) (hp : c.purchaseId ≠ "") (hu : c.url ≠ "") :
    (∀ ch ids, Ev.createPurchase ch ids ∈
        (placeMultipleOrders adapter addCartOk channels orderId st).2 →
      c.id ∉ ids) ∧
    c ∈ (placeMultipleOrders adapter addCartOk channels orderId st).1.cartItems := by
  have hnotsel : ∀ p ∈ placementSelections channels orderId st,
      ((p.2.any fun s => s.id == c.id) = false) := by
    intro p hpmem
    obtain ⟨-, hpeq⟩ := placementSelections_mem channels orderId st p hpmem
    by_cases hany : (p.2.any fun s => s.id == c.id) = true
    · obtain ⟨s, hs, hsid⟩ := List.any_eq_true.mp hany
      rw [hpeq] at hs
      obtain ⟨hsmem, -, -, hspid, -⟩ := unplacedFor_mem _ _ _ _ hs
      have hid2 : s.id = c.id := by simpa using hsid
      have hseq : s = c := List.inj_on_of_nodup_map hnd hsmem hc hid2
      rw [hseq] at hspid
      exact absurd hspid hp
    · simpa using hany
  constructor
  · intro ch ids hev hidmem
    obtain ⟨sel, hsel, hids⟩ := runChannels_event_origin adapter orderId
      addCartOk _ st ch ids hev
    rw [hids] at hidmem
    obtain ⟨s, hs, hsid⟩ := List.mem_map.mp hidmem
    have hany : (sel.any fun x => x.id == c.id) = true :=
      List.any_eq_true.mpr ⟨s, hs, by simp [hsid]⟩
    have hfalse := hnotsel (ch, sel) hsel
    rw [hany] at hfalse
    cases hfalse
  · exact runChannels_untouched adapter orderId addCartOk _ st c hc hnotsel

/-- Concrete adapter for the C4 witness. -/
def c4adapter : Nat → AdapterOutcome := fun _ => .ok ⟨"", "p-2", "u-2"⟩

/-- Concrete already-placed CartItem for the C4 witness. -/
def c4item : CartItem := ⟨1, 10, 1, "done-1", "u-done", "", Status.PENDING⟩

/-- Concrete state for the C4 witness. -/
def c4state : PState := ⟨Status.PENDING, [c4item]⟩

/-- Witness for the C4 theorem at a concrete input. -/
theorem placement_idempotent_on_placed_witness :
    (c4state.cartItems.map (·.id)).Nodup ∧
    c4item.purchaseId ≠ "" ∧ c4item.url ≠ "" ∧
    ((∀ ch ids, Ev.createPurchase ch ids ∈
        (placeMultipleOrders c4adapter true [1] 10 c4state).2 →
      c4item.id ∉ ids) ∧
     c4item ∈ (placeMultipleOrders c4adapter true [1] 10 c4state).1.cartItems) :=
  ⟨by decide, by decide, by decide,
   placement_idempotent_on_placed c4adapter true [1] 10 c4state c4item
     (by decide) (by decide) (by decide) (by decide)⟩

/-- C7: after a placement run that processed at least one target, the order's
status is AWAITING exactly when the final count of unplaced CartItems is zero
(PENDING otherwise); reaching AWAITING implies the storefront's
add-cart-to-platform-order operation was invoked; and the outcome of that
best-effort call has no effect on the resulting state. -/
theorem placement_final_status_recount (adapter : Nat → AdapterOutcome)
    (addCartOk : Bool) (channels : List Nat) (orderId : Nat) (st : PState)
    (hne : placementSelections channels orderId st ≠ []) :
    (placeMultipleOrders adapter addCartOk channels orderId st).1.orderStatus =
      (if unplacedCount
          (placeMultipleOrders adapter addCartOk channels orderId st).1
          orderId = 0
       then Status.AWAITING else Status.PENDING) ∧
    ((placeMultipleOrders adapter addCartOk channels orderId st).1.orderStatus =
        Status.AWAITING →
      Ev.addCartToPlatformOrder addCartOk ∈
        (placeMultipleOrders adapter addCartOk channels orderId st).2) ∧
    (placeMultipleOrders adapter true channels orderId st).1 =
      (placeMultipleOrders adapter false channels orderId st).1 := by
  refine ⟨?_, ?_, ?_⟩
  · exact (runChannels_final_status adapter orderId addCartOk _ st hne).1
  · exact (runChannels_final_status adapter orderId addCartOk _ st hne).2
  · exact runChannels_fst_flag adapter orderId true false _ st

/-- Concrete adapter for the C7 witness. -/
def c7adapter : Nat → AdapterOutcome := fun _ => .ok ⟨"", "p-3", "u-3"⟩

/-- Concrete state for the C7 witness. -/
def c7state : PState :=
  ⟨Status.PENDING, [⟨1, 10, 1, "", "", "", Status.PENDING⟩]⟩

/-- Witness for the C7 theorem at a concrete input. -/
theorem placement_final_status_recount_witness :
    placementSelections [1] 10 c7state ≠ [] ∧
    ((placeMultipleOrders c7adapter true [1] 10 c7state).1.orderStatus =
      (if unplacedCount
          (placeMultipleOrders c7adapter true [1] 10 c7state).1 10 = 0
       then Status.AWAITING else Status.PENDING) ∧
     ((placeMultipleOrders c7adapter true [1] 10 c7state).1.orderStatus =
        Status.AWAITING →
       Ev.addCartToPlatformOrder true ∈
         (placeMultipleOrders c7adapter true [1] 10 c7state).2) ∧
     (placeMultipleOrders c7adapter true [1] 10 c7state).1 =
       (placeMultipleOrders c7adapter false [1] 10 c7state).1) :=
  ⟨by decide,
   placement_final_status_recount c7adapter true [1] 10 c7state (by decide)⟩

end Place

namespace GetM

/-- A (productId, variantId, quantity) tuple of a LineItem or ShopItem. -/
structure Tup where
  productId : String
  variantId : String
  quantity : Nat
deriving DecidableEq, Repr

/-- An output ChannelItem of a Match: target channel, tuple, saved price. -/
structure OutItem where
  channelId : Nat
  productId : String
  variantId : String
  quantity : Nat
  price : String
deriving DecidableEq, Repr

/-- A Match row of the order's owner, with its input ShopItem tuples and its
output ChannelItems (config.js:4439 query shape). -/
structure MatchRec where
  input : List Tup
  output : List OutItem
deriving DecidableEq, Repr

/-- Live product data returned by the `getProductFunction` adapter call. -/
structure Product where
  price : String
  image : String
  title : String
deriving DecidableEq, Repr

/-- A CartItem created by the `createCartItems` helper of `getMatches`. -/
structure GCart where
  channelId : Nat
  productId : String
  variantId : String
  quantity : Nat
  price : String
  error : String
deriving DecidableEq, Repr

/-- The PRICE_CHANGE warning recorded on a created CartItem when the live
price differs from the Match's saved price (config.js:4406). -/
def priceChangeMsg (saved current : String) : String :=
  "PRICE_CHANGE: Price changed: " ++ saved ++ " → " ++ current ++
    ". Verify before placing order."

/-- Creation of one CartItem from one Match output (config.js:4380): fetch
the live product, use its price, and record a PRICE_CHANGE warning when it
differs from the saved price. -/
def createOneCartItem (getProduct : Nat → String → String → Product)
    (o : OutItem) : GCart :=
  let product := getProduct o.channelId o.productId o.variantId
  let currentPriceStr := product.price
  let savedPriceStr := o.price
  { channelId := o.channelId, productId := o.productId,
    variantId := o.variantId, quantity := o.quantity,
    price := currentPriceStr,
    error := if currentPriceStr ≠ savedPriceStr
             then priceChangeMsg savedPriceStr currentPriceStr else "" }

/-- The `createCartItems` loop of `getMatches` (config.js:4368) run over the
per-tuple results.  A `none` entry is the `undefined` the source produces
for an unmatched tuple; destructuring `undefined.output` throws a TypeError,
so iteration stops there with the CartItems of earlier entries already
persisted (second component `true` records the thrown exception). -/
def createCartItemsGo (getProduct : Nat → String → String → Product) :
    List (Option MatchRec) → List GCart → List GCart × Bool
  | [], acc => (acc, false)
  | none :: _, acc => (acc, true)
  | some m :: rest, acc =>
    createCartItemsGo getProduct rest
      (acc ++ m.output.map (createOneCartItem getProduct))

/-- Observable outcome of one `getMatches` invocation: the CartItems that
were created, the error and status written onto the Order, and whether the
call aborted with a thrown TypeError. -/
structure GRes where
  created : List GCart
  orderError : Option String
  orderStatusSet : Option Status
  crashed : Bool
deriving DecidableEq, Repr

/-- The `Match.findMany` query of `getMatches` (config.js:4439): the owner's
matches whose input contains, for each LineItem tuple, some ShopItem with
exactly that productId, variantId and quantity. -/
def exactMatchCandidates (matchRows : List MatchRec) (lineItems : List Tup) :
    List MatchRec :=
  matchRows.filter fun m =>
    lineItems.all fun t => m.input.any fun i => decide (i = t)

/-- The per-tuple fallback query (config.js:4499): the first of the owner's
matches whose every input ShopItem equals the given tuple. -/
def singleTupleMatch (matchRows : List MatchRec) (t : Tup) : Option MatchRec :=
  (matchRows.filter fun m => m.input.all fun i => decide (i = t)).head?

/-- Embedding of `getMatches` (config.js:4367): exact-match fast path
(`inputCount` equal to the LineItem count), then per-tuple fallback for
multi-item orders, with the generic MATCH_ERROR annotations of the source. -/
def getMatches (getProduct : Nat → String → String → Product)
    (matchRows : List MatchRec) (lineItems : List Tup) : GRes :=
  match ((exactMatchCandidates matchRows lineItems).filter fun m =>
      decide (m.input.length = lineItems.length)).head? with
  | some filt =>
    let r := createCartItemsGo getProduct [some filt] []
    { created := r.1, orderError := none, orderStatusSet := none,
      crashed := r.2 }
  | none =>
    if lineItems.length > 1 then
      let output := lineItems.map fun t => singleTupleMatch matchRows t
      let anyUnmatched := output.any fun o => o.isNone
      let orderError :=
        if anyUnmatched then some "MATCH_ERROR: Some lineItems not matched"
        else none
      let orderStatusSet :=
        if anyUnmatched then some Status.PENDING else none
      if (output.filter fun o => o.isSome).length ≠ 0 then
        let r := createCartItemsGo getProduct output []
        { created := r.1, orderError := orderError,
          orderStatusSet := orderStatusSet, crashed := r.2 }
      else
        { created := [], orderError := orderError,
          orderStatusSet := orderStatusSet, crashed := false }
    else
      { created := [], orderError := some "MATCH_ERROR: No matches found",
        orderStatusSet := none, crashed := false }

lemma createCartItemsGo_crashed (getProduct : Nat → String → String → Product) :
    ∀ (l : List (Option MatchRec)) (acc : List GCart),
      none ∈ l → (createCartItemsGo getProduct l acc).2 = true
  | [], acc => by intro h; exact absurd h (List.not_mem_nil _)
  | none :: rest, acc => by intro _; rfl
  | some m :: rest, acc => by
    intro h
    rcases List.mem_cons.mp h with h1 | h2
    · cases h1
    · exact createCartItemsGo_crashed getProduct rest _ h2

/-- Concrete single-tuple Match for C1: a rule for (p1, v1, 1) only. -/
def c1match : MatchRec := ⟨[⟨"p1", "v1", 1⟩], [⟨7, "cp1", "cv1", 1, "10"⟩]⟩

/-- Concrete two-tuple LineItems for C1; only the first has a rule. -/
def c1lineItems : List Tup := [⟨"p1", "v1", 1⟩, ⟨"p2", "v2", 1⟩]

/-- Concrete product lookup for C1: live price equals the saved price. -/
def c1getProduct : Nat → String → String → Product :=
  fun _ _ _ => ⟨"10", "img-1", "t-1"⟩

/-- C1 counterexample: on an order [(p1,v1,1), (p2,v2,1)] where only p1 has a
per-tuple Match, `getMatches` creates one CartItem (for p1's match) before
aborting with a thrown TypeError, and records only the generic error
"MATCH_ERROR: Some lineItems not matched" — not a PartialMatchError naming
p2, and not zero CartItems. -/
theorem partial_match_creates_items_cex :
    (getMatches c1getProduct [c1match] c1lineItems).created =
      [⟨7, "cp1", "cv1", 1, "10", ""⟩] ∧
    (getMatches c1getProduct [c1match] c1lineItems).crashed = true ∧
    (getMatches c1getProduct [c1match] c1lineItems).orderError =
      some "MATCH_ERROR: Some lineItems not matched" := by
  decide

/-- C1 (amended): for a multi-tuple order with no exact match and at least
one tuple without a single-tuple Match, `getMatches` records the generic
error "MATCH_ERROR: Some lineItems not matched" with status PENDING on the
Order; when no tuple has a Match it creates zero CartItems and returns
normally, but when some tuple has a Match it aborts with a thrown TypeError
(after creating CartItems for matched tuples preceding the first unmatched
one) — not all-or-nothing, and no PartialMatchError naming the tuples. -/
theorem partial_match_generic_error
    (getProduct : Nat → String → String → Product)
    (matchRows : List MatchRec) (lineItems : List Tup)
    (hlen : lineItems.length > 1)
    (hexact : ((exactMatchCandidates matchRows lineItems).filter fun m =>
        decide (m.input.length = lineItems.length)).head? = none)
    (hsome : ∃ t ∈ lineItems, singleTupleMatch matchRows t = none) :
    (getMatches getProduct matchRows lineItems).orderError =
      some "MATCH_ERROR: Some lineItems not matched" ∧
    (getMatches getProduct matchRows lineItems).orderStatusSet =
      some Status.PENDING ∧
    ((∀ t ∈ lineItems, singleTupleMatch matchRows t = none) →
      (getMatches getProduct matchRows lineItems).created = [] ∧
      (getMatches getProduct matchRows lineItems).crashed = false) ∧
    ((∃ t ∈ lineItems, (singleTupleMatch matchRows t).isSome = true) →
      (getMatches getProduct matchRows lineItems).crashed = true) := by
  obtain ⟨t0, ht0mem, ht0⟩ := hsome
  have hout : none ∈ lineItems.map fun t => singleTupleMatch matchRows t :=
    List.mem_map.mpr ⟨t0, ht0mem, ht0⟩
  have hany : ((lineItems.map fun t => singleTupleMatch matchRows t).any
      fun o => o.isNone) = true :=
    List.any_eq_true.mpr ⟨none, hout, rfl⟩
  refine ⟨?_, ?_, ?_, ?_⟩
  · by_cases hfilter :
        ((lineItems.map fun t => singleTupleMatch matchRows t).filter
          fun o => o.isSome).length ≠ 0 <;>
      simp [getMatches, hexact, hany, hlen, hfilter]
  · by_cases hfilter :
        ((lineItems.map fun t => singleTupleMatch matchRows t).filter
          fun o => o.isSome).length ≠ 0 <;>
      simp [getMatches, hexact, hany, hlen, hfilter]
  · intro hall
    have hnil : ((lineItems.map fun t => singleTupleMatch matchRows t).filter
        fun o => o.isSome) = [] := by
      refine List.filter_eq_nil_iff.mpr ?_
      intro o ho
      obtain ⟨t, htmem, rfl⟩ := List.mem_map.mp ho
      rw [hall t htmem]
      simp
    constructor <;> simp [getMatches, hexact, hany, hlen, hnil]
  · rintro ⟨t1, ht1mem, hsome1⟩
    have hpos : ((lineItems.map fun t => singleTupleMatch matchRows t).filter
        fun o => o.isSome).length ≠ 0 := by
      have hmem1 : singleTupleMatch matchRows t1 ∈
          (lineItems.map fun t => singleTupleMatch matchRows t).filter
            fun o => o.isSome :=
        List.mem_filter.mpr ⟨List.mem_map.mpr ⟨t1, ht1mem, rfl⟩, hsome1⟩
      intro h0
      rw [List.length_eq_zero] at h0
      rw [h0] at hmem1
      exact absurd hmem1 (List.not_mem_nil _)
    simp [getMatches, hexact, hany, hlen, hpos,
      createCartItemsGo_crashed getProduct _ _ hout]

/-- Witness for the C1 amended theorem at a concrete input. -/
theorem partial_match_generic_error_witness :
    (c1lineItems.length > 1 ∧
     ((exactMatchCandidates [c1match] c1lineItems).filter fun m =>
        decide (m.input.length = c1lineItems.length)).head? = none ∧
     (∃ t ∈ c1lineItems, singleTupleMatch [c1match] t = none)) ∧
    ((getMatches c1getProduct [c1match] c1lineItems).orderError =
      some "MATCH_ERROR: Some lineItems not matched" ∧
     (getMatches c1getProduct [c1match] c1lineItems).orderStatusSet =
      some Status.PENDING ∧
     ((∀ t ∈ c1lineItems, singleTupleMatch [c1match] t = none) →
       (getMatches c1getProduct [c1match] c1lineItems).created = [] ∧
       (getMatches c1getProduct [c1match] c1lineItems).crashed = false) ∧
     ((∃ t ∈ c1lineItems, (singleTupleMatch [c1match] t).isSome = true) →
       (getMatches c1getProduct [c1match] c1lineItems).crashed = true)) :=
  ⟨⟨by decide, by decide, by decide⟩,
   partial_match_generic_error c1getProduct [c1match] c1lineItems
     (by decide) (by decide) (by decide)⟩

end GetM

namespace MatchH

/-- A persisted Match row as seen by the duplicate check: its id and the ids
of its input ShopItems. -/
structure MatchRow where
  id : Nat
  inputIds : List Nat
deriving DecidableEq, Repr

/-- Embedding of `checkForDuplicate` (config.js:6258): among the matches
sharing at least one input ShopItem id with the given list, test whether one
has an input id list of the same length all of whose ids are in the list. -/
def checkForDuplicate (rows : List MatchRow) (inputIds : List Nat) : Bool :=
  (rows.filter fun m => m.inputIds.any fun i => decide (i ∈ inputIds)).any
    fun m => decide (m.inputIds.length = inputIds.length) &&
      (m.inputIds.all fun i => decide (i ∈ inputIds))

/-- The rejection message thrown by the hook (config.js:6277). -/
def duplicateMatchMsg : String :=
  "A match with the same input combination already exists."

/-- The create branch of the `Match` `resolveInput` hook (config.js:6272):
the duplicate check runs only when the create connects a nonempty input id
list; a detected duplicate aborts before the row is persisted. -/
def matchResolveInputCreate (rows : List MatchRow) (connectIds : List Nat) :
    Except String Unit :=
  if connectIds.length > 0 then
    if checkForDuplicate rows connectIds then Except.error duplicateMatchMsg
    else Except.ok ()
  else Except.ok ()

/-- The update branch of the hook (config.js:6283): the inputs remaining
after the update's disconnects plus the newly connected inputs are checked
for duplication against the persisted matches. -/
def matchResolveInputUpdate (rows : List MatchRow)
    (currentInputIds disconnectIds connectIds : List Nat) :
    Except String (List Nat) :=
  let remaining := currentInputIds.filter fun i => !(decide (i ∈ disconnectIds))
  let combined := remaining ++ connectIds
  if checkForDuplicate rows combined then Except.error duplicateMatchMsg
  else Except.ok combined

lemma checkForDuplicate_of_same_set (rows : List MatchRow) (ids : List Nat)
    (m : MatchRow) (hm : m ∈ rows) (hnd1 : m.inputIds.Nodup)
    (hnd2 : ids.Nodup) (hne : ids ≠ [])
    (hset : ∀ x, x ∈ m.inputIds ↔ x ∈ ids) :
    checkForDuplicate rows ids = true := by
  have hperm : List.Perm m.inputIds ids :=
    (List.perm_ext_iff_of_nodup hnd1 hnd2).mpr hset
  have hlen := hperm.length_eq
  obtain ⟨x, tl, rfl⟩ : ∃ x tl, ids = x :: tl := by
    cases ids with
    | nil => exact absurd rfl hne
    | cons a t => exact ⟨a, t, rfl⟩
  have hx : x ∈ x :: tl := List.mem_cons_self _ _
  have hxm : x ∈ m.inputIds := (hset x).mpr hx
  refine List.any_eq_true.mpr ⟨m, ?_, ?_⟩
  · refine List.mem_filter.mpr ⟨hm, ?_⟩
    exact List.any_eq_true.mpr ⟨x, hxm, by simp⟩
  · rw [Bool.and_eq_true]
    refine ⟨by simpa using hlen, ?_⟩
    refine List.all_eq_true.mpr ?_
    intro i hi
    simpa using (hset i).mp hi

/-- C5 counterexample: with an existing Match whose input ShopItem-set is
empty, creating a second Match with the identical (empty) input set is not
rejected — the hook's duplicate check is skipped for empty connect lists. -/
theorem duplicate_empty_input_not_rejected_cex :
    (MatchRow.mk 1 []).inputIds = ([] : List Nat) ∧
    matchResolveInputCreate [⟨1, []⟩] [] = Except.ok () :=
  ⟨rfl, rfl⟩

/-- C5 (amended): creating a Match whose nonempty, repetition-free input
ShopItem-id set is identical to an existing Match's (repetition-free) input
set is rejected with the duplicate-match error before persistence, and an
update whose resulting nonempty, repetition-free input set duplicates an
existing Match's input set is likewise rejected. -/
theorem duplicate_match_rejected (rows : List MatchRow) :
    (∀ (connectIds : List Nat) (m : MatchRow), m ∈ rows →
      m.inputIds.Nodup → connectIds ≠ [] → connectIds.Nodup →
      (∀ x, x ∈ m.inputIds ↔ x ∈ connectIds) →
      matchResolveInputCreate rows connectIds =
        Except.error duplicateMatchMsg) ∧
    (∀ (currentInputIds disconnectIds connectIds : List Nat) (m : MatchRow),
      m ∈ rows → m.inputIds.Nodup →
      ((currentInputIds.filter fun i => !(decide (i ∈ disconnectIds))) ++
          connectIds) ≠ [] →
      ((currentInputIds.filter fun i => !(decide (i ∈ disconnectIds))) ++
          connectIds).Nodup →
      (∀ x, x ∈ m.inputIds ↔
        x ∈ (currentInputIds.filter fun i => !(decide (i ∈ disconnectIds))) ++
          connectIds) →
      matchResolveInputUpdate rows currentInputIds disconnectIds connectIds =
        Except.error duplicateMatchMsg) := by
  constructor
  · intro connectIds m hm hnd1 hne hnd2 hset
    have hchk := checkForDuplicate_of_same_set rows connectIds m hm hnd1
      hnd2 hne hset
    have hpos : connectIds.length > 0 := by
      cases connectIds with
      | nil => exact absurd rfl hne
      | cons a t => simp
    simp [matchResolveInputCreate, hpos, hchk]
  · intro currentInputIds disconnectIds connectIds m hm hnd1 hne hnd2 hset
    have hchk := checkForDuplicate_of_same_set rows _ m hm hnd1 hnd2 hne hset
    simp [matchResolveInputUpdate, hchk]

/-- Witness for the C5 amended theorem at concrete inputs. -/
theorem duplicate_match_rejected_witness :
    matchResolveInputCreate [⟨1, [5]⟩] [5] =
      Except.error duplicateMatchMsg ∧
    matchResolveInputUpdate [⟨1, [5]⟩] [] [] [5] =
      Except.error duplicateMatchMsg :=
  ⟨(duplicate_match_rejected [⟨1, [5]⟩]).1 [5] ⟨1, [5]⟩ (by decide)
     (by decide) (by decide) (by decide) (fun x => Iff.rfl),
   (duplicate_match_rejected [⟨1, [5]⟩]).2 [] [] [5] ⟨1, [5]⟩ (by decide)
     (by decide) (by decide) (by decide) (fun x => Iff.rfl)⟩

end MatchH

namespace Tracking

/-- A CartItem as seen by the completion recount: its status and its number
of TrackingDetails after the new TrackingDetail has been attached. -/
structure TCartItem where
  status : Status
  trackingCount : Nat
deriving DecidableEq, Repr

/-- The Order state the `TrackingDetail.afterOperation` hook reads/writes. -/
structure TOrder where
  status : Status
  cartItems : List TCartItem
deriving DecidableEq, Repr

/-- Embedding of the `TrackingDetail.afterOperation` create hook
(config.js:4865): when the new TrackingDetail has no CartItems, return
early; otherwise (after the best-effort add-tracking adapter call, whose
failure is caught and only logged) re-read the order's CartItems that have
no TrackingDetail and are not CANCELLED, and advance the order to COMPLETE
exactly when none remain and the order is AWAITING. -/
def trackingAfterCreate (trackingHasCartItems : Bool) (order : TOrder) :
    TOrder :=
  if !trackingHasCartItems then order
  else
    let remaining := order.cartItems.filter fun ci =>
      decide (ci.trackingCount = 0 ∧ ci.status ≠ Status.CANCELLED)
    if remaining.length = 0 ∧ order.status = Status.AWAITING then
      { order with status := Status.COMPLETE }
    else order

lemma tracking_remaining_iff (order : TOrder) :
    ((order.cartItems.filter fun ci =>
      decide (ci.trackingCount = 0 ∧ ci.status ≠ Status.CANCELLED)).length = 0)
    ↔ (∀ ci ∈ order.cartItems,
        ci.status ≠ Status.CANCELLED → 0 < ci.trackingCount) := by
  rw [List.length_eq_zero, List.filter_eq_nil_iff]
  constructor
  · intro h ci hci hnc
    have hneg := h ci hci
    rw [decide_eq_true_eq] at hneg
    rcases Nat.eq_zero_or_pos ci.trackingCount with h0 | hpos
    · exact absurd ⟨h0, hnc⟩ hneg
    · exact hpos
  · intro h ci hci
    rw [decide_eq_true_eq]
    rintro ⟨h0, hnc⟩
    have := h ci hci hnc
    omega

/-- C6: for a TrackingDetail created with at least one CartItem, an AWAITING
order advances to COMPLETE exactly when every non-CANCELLED CartItem has at
least one TrackingDetail (cancelled items are excluded from the
requirement), and an order whose status is not AWAITING is left unchanged
by this path. -/
theorem tracking_completion_exact (order : TOrder) :
    (order.status = Status.AWAITING →
      ((trackingAfterCreate true order).status = Status.COMPLETE ↔
        ∀ ci ∈ order.cartItems,
          ci.status ≠ Status.CANCELLED → 0 < ci.trackingCount)) ∧
    (order.status ≠ Status.AWAITING →
      trackingAfterCreate true order = order) := by
  constructor
  · intro hA
    by_cases hrem : (order.cartItems.filter fun ci =>
        decide (ci.trackingCount = 0 ∧ ci.status ≠ Status.CANCELLED)).length = 0
    · have hval : trackingAfterCreate true order =
          { order with status := Status.COMPLETE } := by
        simp only [trackingAfterCreate]
        rw [if_neg (by simp), if_pos ⟨hrem, hA⟩]
      rw [hval]
      exact ⟨fun _ => (tracking_remaining_iff order).mp hrem, fun _ => rfl⟩
    · have hval : trackingAfterCreate true order = order := by
        simp only [trackingAfterCreate]
        rw [if_neg (by simp), if_neg (fun hcond => hrem hcond.1)]
      rw [hval]
      constructor
      · intro hC
        rw [hA] at hC
        exact absurd hC (by decide)
      · intro hall
        exact absurd ((tracking_remaining_iff order).mpr hall) hrem
  · intro hnA
    simp only [trackingAfterCreate]
    rw [if_neg (by simp), if_neg (fun hcond => hnA hcond.2)]

/-- Witness for the C6 theorem at a concrete input: an AWAITING order with a
tracked PENDING item and an untracked CANCELLED item advances to COMPLETE. -/
theorem tracking_completion_exact_witness :
    (trackingAfterCreate true
      ⟨Status.AWAITING,
       [⟨Status.PENDING, 1⟩, ⟨Status.CANCELLED, 0⟩]⟩).status =
      Status.COMPLETE :=
  ((tracking_completion_exact
      ⟨Status.AWAITING,
       [⟨Status.PENDING, 1⟩, ⟨Status.CANCELLED, 0⟩]⟩).1 rfl).mpr (by decide)

end Tracking

namespace LinkM

/-- A routing Link row: id, rank, target channel, and the optional dynamic
where clause of its filter predicate (clauses abstracted by an id). -/
structure Link where
  id : Nat
  rank : Int
  channelId : Nat
  dynamicWhereClause : Option Nat
deriving DecidableEq, Repr

/-- A LineItem snapshot used for routing. -/
structure LineItem where
  productId : String
  variantId : String
  quantity : Nat
deriving DecidableEq, Repr

/-- A CartItem created by link routing: one LineItem copied to a channel. -/
structure RoutedCartItem where
  productId : String
  variantId : String
  quantity : Nat
  channelId : Nat
deriving DecidableEq, Repr

/-- Embedding of `applyDynamicWhereClause` (config.js:4593) for a fixed
order: a link without a `dynamicWhereClause` matches nothing; otherwise
`evalClause` decides whether the order satisfies the clause (i.e. whether
the `findOne` with the clause plus the order's id returns the order). -/
def applyDynamicWhereClause (evalClause : Nat → Bool) (link : Link) : Bool :=
  match link.dynamicWhereClause with
  | none => false
  | some w => evalClause w

/-- The rank-ascending stable sort of the storefront's links
(config.js:4674, `links.sort((a, b) => a.rank - b.rank)`). -/
def sortLinks (links : List Link) : List Link :=
  List.insertionSort (fun a b => a.rank ≤ b.rank) links

/-- The sequential mode of the link resolver (config.js:4676): walk the
sorted links and stop at the first whose predicate matches. -/
def sequentialMatchedLinks (evalClause : Nat → Bool) (links : List Link) :
    List Link :=
  match (sortLinks links).find? (applyDynamicWhereClause evalClause) with
  | some l => [l]
  | none => []

/-- The simultaneous mode (config.js:4684): keep every matching link. -/
def simultaneousMatchedLinks (evalClause : Nat → Bool) (links : List Link) :
    List Link :=
  (sortLinks links).filter (applyDynamicWhereClause evalClause)

/-- The matched links for the storefront's `linkMode`. -/
def matchedLinksFor (mode : String) (evalClause : Nat → Bool)
    (links : List Link) : List Link :=
  if mode = "sequential" then sequentialMatchedLinks evalClause links
  else if mode = "simultaneous" then simultaneousMatchedLinks evalClause links
  else []

/-- CartItem materialisation (config.js:4693): each matched link receives a
full copy of the order's LineItems, routed to its channel. -/
def routeCartItems (matchedLinks : List Link) (lineItems : List LineItem) :
    List RoutedCartItem :=
  matchedLinks.foldr
    (fun l acc =>
      (lineItems.map fun li =>
        ⟨li.productId, li.variantId, li.quantity, l.channelId⟩) ++ acc)
    []

/-- The `linkOrder` branch of `Order.afterOperation` (config.js:4673): with
at least one link, compute the matched links per mode; route the LineItems
when something matched, otherwise record the explanatory error. -/
def linkOrderRun (mode : String) (evalClause : Nat → Bool)
    (links : List Link) (lineItems : List LineItem) :
    List RoutedCartItem × Option String :=
  if links.length > 0 then
    if (matchedLinksFor mode evalClause links).length > 0 then
      (routeCartItems (matchedLinksFor mode evalClause links) lineItems, none)
    else ([], some "No matching link found for this order")
  else ([], none)

/-- C8: in sequential mode with a first matching link `l` (in ascending rank
order), all of the order's LineItems are materialised as CartItems routed
to `l`'s channel, no CartItem is routed anywhere else, `l`'s predicate
holds, and no routing error is recorded. -/
theorem sequential_first_match_routes_all (evalClause : Nat → Bool)
    (links : List Link) (lineItems : List LineItem) (l : Link)
    (hfind : (sortLinks links).find?
      (applyDynamicWhereClause evalClause) = some l)
    (hne : links ≠ []) :
    (linkOrderRun "sequential" evalClause links lineItems).1 =
      lineItems.map
        (fun li => ⟨li.productId, li.variantId, li.quantity, l.channelId⟩) ∧
    (∀ c ∈ (linkOrderRun "sequential" evalClause links lineItems).1,
      c.channelId = l.channelId) ∧
    applyDynamicWhereClause evalClause l = true ∧
    l ∈ sortLinks links ∧
    (linkOrderRun "sequential" evalClause links lineItems).2 = none := by
  have hpos : links.length > 0 := by
    cases links with
    | nil => exact absurd rfl hne
    | cons a t => simp
  have hm : matchedLinksFor "sequential" evalClause links = [l] := by
    show (if ("sequential" : String) = "sequential"
      then sequentialMatchedLinks evalClause links
      else if ("sequential" : String) = "simultaneous"
        then simultaneousMatchedLinks evalClause links else []) = [l]
    rw [if_pos rfl]
    simp [sequentialMatchedLinks, hfind]
  have hrun : linkOrderRun "sequential" evalClause links lineItems =
      (lineItems.map
        (fun li => ⟨li.productId, li.variantId, li.quantity, l.channelId⟩),
       none) := by
    unfold linkOrderRun
    rw [if_pos hpos, hm, if_pos (by simp)]
    simp [routeCartItems]
  refine ⟨?_, ?_, ?_, ?_, ?_⟩
  · rw [hrun]
  · rw [hrun]
    intro c hc
    obtain ⟨li, _, rfl⟩ := List.mem_map.mp hc
    rfl
  · exact List.find?_some hfind
  · exact List.mem_of_find?_eq_some hfind
  · rw [hrun]

/-- Concrete links for the C8 witness: ranks 1, 2, 3; clause 1 is false,
clauses 2 and 3 are true. -/
def c8links : List Link :=
  [⟨1, 1, 101, some 1⟩, ⟨2, 2, 102, some 2⟩, ⟨3, 3, 103, some 3⟩]

/-- Concrete clause evaluation for the C8 witness. -/
def c8eval : Nat → Bool := fun w => decide (w = 2 ∨ w = 3)

/-- Concrete LineItems for the C8 witness. -/
def c8lineItems : List LineItem := [⟨"p1", "v1", 1⟩, ⟨"p2", "v2", 2⟩]

/-- Witness for the C8 theorem at a concrete input: with links A(rank 1,
false), B(rank 2, true), C(rank 3, true), only B's channel receives the
LineItems. -/
theorem sequential_first_match_routes_all_witness :
    ((sortLinks c8links).find? (applyDynamicWhereClause c8eval) =
      some ⟨2, 2, 102, some 2⟩ ∧ c8links ≠ []) ∧
    ((linkOrderRun "sequential" c8eval c8links c8lineItems).1 =
      c8lineItems.map
        (fun li => ⟨li.productId, li.variantId, li.quantity, 102⟩) ∧
     (∀ c ∈ (linkOrderRun "sequential" c8eval c8links c8lineItems).1,
       c.channelId = 102) ∧
     applyDynamicWhereClause c8eval ⟨2, 2, 102, some 2⟩ = true ∧
     (⟨2, 2, 102, some 2⟩ : Link) ∈ sortLinks c8links ∧
     (linkOrderRun "sequential" c8eval c8links c8lineItems).2 = none) :=
  ⟨⟨by decide, by decide⟩,
   sequential_first_match_routes_all c8eval c8links c8lineItems
     ⟨2, 2, 102, some 2⟩ (by decide) (by decide)⟩

/-- Embedding of the rank computation in the `Link.beforeOperation` create
hook (config.js:6442): `existingLinks.length > 0 ? existingLinks.length + 1
: 1`. -/
def linkBeforeOperationRank (existingLinks : List Link) : Int :=
  if existingLinks.length > 0 then (existingLinks.length : Int) + 1 else 1

/-- Embedding of the `Link.beforeOperation` hook (config.js:6436): on
create, overwrite the resolved rank with the computed one; on any other
operation the hook does nothing. -/
def linkBeforeOperation (operation : String) (resolvedRank : Option Int)
    (existingLinks : List Link) : Option Int :=
  if operation = "create" then some (linkBeforeOperationRank existingLinks)
  else resolvedRank

/-- The rank assignment the spec describes, stated from its words for
comparison: `max(existing ranks) + 1`, or 1 when no links exist. -/
def specMaxRankPlusOne (existingLinks : List Link) : Int :=
  match existingLinks.map (·.rank) with
  | [] => 1
  | r :: rs => rs.foldl max r + 1

/-- C9 counterexample: with existing links of ranks 2 and 3 (as after the
rank-1 link of three was deleted), the hook assigns rank 3 (count + 1),
while max(existing) + 1 is 4 — the assigned rank differs from the claimed
formula and even collides with an existing rank. -/
theorem link_rank_not_max_plus_one_cex :
    linkBeforeOperationRank [⟨1, 2, 101, none⟩, ⟨2, 3, 102, none⟩] = 3 ∧
    specMaxRankPlusOne [⟨1, 2, 101, none⟩, ⟨2, 3, 102, none⟩] = 4 ∧
    (3 : Int) ≠ 4 := by
  refine ⟨rfl, rfl, by decide⟩

/-- C9 (amended): at creation the hook assigns rank = (number of the
storefront's existing Links) + 1 — equal to 1 when none exist — and on
non-create operations it leaves the resolved rank untouched. -/
theorem link_rank_assignment (operation : String) (resolvedRank : Option Int)
    (existingLinks : List Link) :
    linkBeforeOperation "create" resolvedRank existingLinks =
      some ((existingLinks.length : Int) + 1) ∧
    (operation ≠ "create" →
      linkBeforeOperation operation resolvedRank existingLinks =
        resolvedRank) := by
  constructor
  · show (if ("create" : String) = "create"
      then some (linkBeforeOperationRank existingLinks)
      else resolvedRank) = some ((existingLinks.length : Int) + 1)
    rw [if_pos rfl]
    congr 1
    unfold linkBeforeOperationRank
    by_cases h : existingLinks.length > 0
    · rw [if_pos h]
    · rw [if_neg h]
      have h0 : existingLinks.length = 0 := by omega
      rw [h0]
      rfl
  · intro hop
    unfold linkBeforeOperation
    rw [if_neg hop]

/-- Witness for the C9 amended theorem at a concrete input. -/
theorem link_rank_assignment_witness :
    linkBeforeOperation "create" (some 9) [⟨1, 2, 101, none⟩] =
      some ((([⟨1, 2, 101, none⟩] : List Link).length : Int) + 1) ∧
    linkBeforeOperation "update" (some 9) [⟨1, 2, 101, none⟩] = some 9 :=
  ⟨(link_rank_assignment "update" (some 9) [⟨1, 2, 101, none⟩]).1,
   (link_rank_assignment "update" (some 9) [⟨1, 2, 101, none⟩]).2
     (by decide)⟩

end LinkM

namespace MOrd

/-- A (productId, variantId, quantity) tuple. -/
structure Tup where
  productId : String
  variantId : String
  quantity : Nat
deriving DecidableEq, Repr

/-- A persisted ShopItem row: the owner-scoped fingerprint of a storefront
tuple. -/
structure ShopItem where
  id : Nat
  shopId : Nat
  userId : Nat
  tup : Tup
deriving DecidableEq, Repr

/-- A persisted ChannelItem row. -/
structure ChannelItem where
  id : Nat
  channelId : Nat
  userId : Nat
  tup : Tup
  price : String
deriving DecidableEq, Repr

/-- A persisted Match row: owner and the ids of its input ShopItems and
output ChannelItems. -/
structure MatchRow where
  id : Nat
  userId : Nat
  inputIds : List Nat
  outputIds : List Nat
deriving DecidableEq, Repr

/-- The slice of the store `matchOrder` reads and writes, with a fresh-id
counter for created rows. -/
structure MState where
  shopItems : List ShopItem
  channelItems : List ChannelItem
  matchRows : List MatchRow
  nextId : Nat
deriving DecidableEq, Repr

/-- A CartItem of the order as `matchOrder` reads it: target channel, tuple
and price. -/
structure MCartItem where
  channelId : Nat
  tup : Tup
  price : String
deriving DecidableEq, Repr

/-- The Order fields `matchOrder` reads: its storefront, its LineItem tuples
and its CartItems. -/
structure MOrder where
  shopId : Nat
  lineItems : List Tup
  cartItems : List MCartItem
deriving DecidableEq, Repr

/-- Embedding of `findShopItems` (config.js:6883): for each LineItem tuple,
reuse the first ShopItem with the same (shop, user, quantity, productId,
variantId), creating one only when none exists. -/
def findShopItemsGo (userId shopId : Nat) :
    List Tup → MState → MState × List Nat
  | [], st => (st, [])
  | t :: ts, st =>
    match st.shopItems.find? fun s =>
        decide (s.shopId = shopId ∧ s.userId = userId ∧ s.tup = t) with
    | some s =>
      let r := findShopItemsGo userId shopId ts st
      (r.1, s.id :: r.2)
    | none =>
      let st1 : MState :=
        { st with
          shopItems := st.shopItems ++ [⟨st.nextId, shopId, userId, t⟩],
          nextId := st.nextId + 1 }
      let r := findShopItemsGo userId shopId ts st1
      (r.1, st.nextId :: r.2)

/-- Embedding of `findChannelItems` (config.js:6840): for each CartItem,
reuse the first ChannelItem with the same (channel, user, quantity,
productId, variantId), creating one only when none exists. -/
def findChannelItemsGo (userId : Nat) :
    List MCartItem → MState → MState × List Nat
  | [], st => (st, [])
  | c :: cs, st =>
    match st.channelItems.find? fun x =>
        decide (x.channelId = c.channelId ∧ x.userId = userId ∧
          x.tup = c.tup) with
    | some x =>
      let r := findChannelItemsGo userId cs st
      (r.1, x.id :: r.2)
    | none =>
      let st1 : MState :=
        { st with
          channelItems := st.channelItems ++
            [⟨st.nextId, c.channelId, userId, c.tup, c.price⟩],
          nextId := st.nextId + 1 }
      let r := findChannelItemsGo userId cs st1
      (r.1, st.nextId :: r.2)

/-- The tuple of the ShopItem with the given id, as the Match query reads
it. -/
def shopItemTup (shopItems : List ShopItem) (i : Nat) : Option Tup :=
  (shopItems.find? fun s => decide (s.id = i)).map (·.tup)

/-- The `Match.findMany` condition of `matchOrder` (config.js:7001): every
LineItem tuple appears among the match's input ShopItems. -/
def coversLineItems (shopItems : List ShopItem) (m : MatchRow)
    (lineItems : List Tup) : Bool :=
  lineItems.all fun t => m.inputIds.any fun i =>
    decide (shopItemTup shopItems i = some t)

/-- The caller's matches satisfying the `matchOrder` query. -/
def qualifyingMatches (shopItems : List ShopItem) (rows : List MatchRow)
    (userId : Nat) (lineItems : List Tup) : List MatchRow :=
  rows.filter fun m =>
    decide (m.userId = userId) && coversLineItems shopItems m lineItems

/-- The `checkForDuplicate` of the `Match` `resolveInput` hook
(config.js:6258), as it runs when `matchOrder` creates the new Match. -/
def checkForDuplicateM (rows : List MatchRow) (inputIds : List Nat) : Bool :=
  (rows.filter fun m => m.inputIds.any fun i => decide (i ∈ inputIds)).any
    fun m => decide (m.inputIds.length = inputIds.length) &&
      (m.inputIds.all fun i => decide (i ∈ inputIds))

/-- Embedding of the `matchOrder` mutation (config.js:6925): resolve the
ShopItem/ChannelItem connects, delete the first of the caller's matches
that covers every LineItem tuple and has input count equal to the LineItem
count, then create the new Match through the hook's duplicate check. -/
def matchOrder (st : MState) (userId : Nat) (order : MOrder) :
    Except String (MState × Nat) :=
  let r1 := findShopItemsGo userId order.shopId order.lineItems st
  let r2 := findChannelItemsGo userId order.cartItems r1.1
  let st2 := r2.1
  let shopConnect := r1.2
  let chanConnect := r2.2
  let filt := ((qualifyingMatches st2.shopItems st2.matchRows userId
      order.lineItems).filter fun m =>
    decide (m.inputIds.length = order.lineItems.length)).head?
  let st3 :=
    match filt with
    | some m =>
      { st2 with matchRows := st2.matchRows.filter fun x => decide (x.id ≠ m.id) }
    | none => st2
  if shopConnect.length > 0 && checkForDuplicateM st3.matchRows shopConnect then
    Except.error "A match with the same input combination already exists."
  else
    Except.ok
      ({ st3 with
         matchRows := st3.matchRows ++
           [⟨st3.nextId, userId, shopConnect, chanConnect⟩],
         nextId := st3.nextId + 1 },
       st3.nextId)

/-- Boolean set-equality of two id lists (membership in both directions). -/
def sameIdSet (a b : List Nat) : Bool :=
  (a.all fun x => decide (x ∈ b)) && (b.all fun x => decide (x ∈ a))

lemma sameIdSet_iff (a b : List Nat) :
    sameIdSet a b = true ↔ ∀ x, (x ∈ a ↔ x ∈ b) := by
  unfold sameIdSet
  rw [Bool.and_eq_true, List.all_eq_true, List.all_eq_true]
  constructor
  · rintro ⟨h1, h2⟩ x
    constructor
    · intro hx
      simpa using h1 x hx
    · intro hx
      simpa using h2 x hx
  · intro h
    exact ⟨fun x hx => by simpa using (h x).mp hx,
           fun x hx => by simpa using (h x).mpr hx⟩

lemma findChannelItemsGo_preserves (userId : Nat) :
    ∀ (cs : List MCartItem) (st : MState),
      (findChannelItemsGo userId cs st).1.shopItems = st.shopItems ∧
      (findChannelItemsGo userId cs st).1.matchRows = st.matchRows
  | [], st => ⟨rfl, rfl⟩
  | c :: cs, st => by
    cases hfind : st.channelItems.find? fun x =>
        decide (x.channelId = c.channelId ∧ x.userId = userId ∧
          x.tup = c.tup) with
    | some x =>
      have IH := findChannelItemsGo_preserves userId cs st
      simp only [findChannelItemsGo, hfind]
      exact IH
    | none =>
      have IH := findChannelItemsGo_preserves userId cs
        { st with
          channelItems := st.channelItems ++
            [⟨st.nextId, c.channelId, userId, c.tup, c.price⟩],
          nextId := st.nextId + 1 }
      simp only [findChannelItemsGo, hfind]
      exact IH

lemma findShopItemsGo_all_found (userId shopId : Nat) :
    ∀ (ts : List Tup) (st : MState),
      (∀ t ∈ ts, ∃ s ∈ st.shopItems,
        s.shopId = shopId ∧ s.userId = userId ∧ s.tup = t) →
      (findShopItemsGo userId shopId ts st).1 = st ∧
      (findShopItemsGo userId shopId ts st).2.length = ts.length ∧
      ∀ x, x ∈ (findShopItemsGo userId shopId ts st).2 ↔
        ∃ t ∈ ts, ∃ s, st.shopItems.find? (fun s2 =>
          decide (s2.shopId = shopId ∧ s2.userId = userId ∧ s2.tup = t)) =
            some s ∧ x = s.id
  | [], st => by
    intro _
    refine ⟨rfl, rfl, ?_⟩
    intro x
    simp [findShopItemsGo]
  | t :: ts, st => by
    intro hex
    obtain ⟨s0, hs0mem, hs0⟩ := hex t (List.mem_cons_self _ _)
    have hfindsome : (st.shopItems.find? fun s2 =>
        decide (s2.shopId = shopId ∧ s2.userId = userId ∧
          s2.tup = t)).isSome := by
      rw [List.find?_isSome]
      exact ⟨s0, hs0mem, by simpa using hs0⟩
    obtain ⟨s1, hs1⟩ := Option.isSome_iff_exists.mp hfindsome
    have IH := findShopItemsGo_all_found userId shopId ts st
      (fun t2 ht2 => hex t2 (List.mem_cons_of_mem _ ht2))
    simp only [findShopItemsGo, hs1]
    refine ⟨IH.1, by simp [IH.2.1], ?_⟩
    intro x
    simp only [List.mem_cons]
    constructor
    · rintro (rfl | hx)
      · exact ⟨t, Or.inl rfl, s1, hs1, rfl⟩
      · obtain ⟨t2, ht2, s2, hfind2, rfl⟩ := (IH.2.2 x).mp hx
        exact ⟨t2, Or.inr ht2, s2, hfind2, rfl⟩
    · rintro ⟨t2, ht2, s2, hfind2, rfl⟩
      rcases ht2 with rfl | ht2x
      · rw [hs1] at hfind2
        cases hfind2
        exact Or.inl rfl
      · exact Or.inr ((IH.2.2 _).mpr ⟨t2, ht2x, s2, hfind2, rfl⟩)

lemma find_shopItem_by_id (shopItems : List ShopItem) (i : Nat)
    (s' : ShopItem) (hnd : (shopItems.map (·.id)).Nodup)
    (hs' : s' ∈ shopItems) (hid : s'.id = i) :
    shopItems.find? (fun s => decide (s.id = i)) = some s' := by
  have hsome : (shopItems.find? (fun s => decide (s.id = i))).isSome := by
    rw [List.find?_isSome]
    exact ⟨s', hs', by simpa using hid⟩
  obtain ⟨f, hf⟩ := Option.isSome_iff_exists.mp hsome
  have hfmem := List.mem_of_find?_eq_some hf
  have hfid : f.id = i := by simpa using List.find?_some hf
  have heq : f = s' := List.inj_on_of_nodup_map hnd hfmem hs'
    (by rw [hfid, hid])
  rw [hf, heq]

/-- Under the ShopItem uniqueness invariants, the ShopItem connect computed
by `matchOrder` creates nothing and its id list has exactly the ids of a
Match whose inputs carry exactly the order's LineItem tuples. -/
lemma shopConnect_set (st : MState) (userId : Nat) (order : MOrder)
    (M : MatchRow)
    (hIdNodup : (st.shopItems.map (·.id)).Nodup)
    (hDedup : ∀ s1 ∈ st.shopItems, ∀ s2 ∈ st.shopItems,
      s1.shopId = s2.shopId → s1.userId = s2.userId → s1.tup = s2.tup →
        s1 = s2)
    (hMitems : ∀ i ∈ M.inputIds, ∃ s ∈ st.shopItems,
      s.id = i ∧ s.userId = userId ∧ s.shopId = order.shopId)
    (hCover : ∀ t ∈ order.lineItems, ∃ i ∈ M.inputIds,
      shopItemTup st.shopItems i = some t)
    (hOnlyT : ∀ i ∈ M.inputIds, ∃ t ∈ order.lineItems,
      shopItemTup st.shopItems i = some t) :
    (findShopItemsGo userId order.shopId order.lineItems st).1 = st ∧
    (findShopItemsGo userId order.shopId order.lineItems st).2.length =
      order.lineItems.length ∧
    ∀ x, x ∈ (findShopItemsGo userId order.shopId order.lineItems st).2 ↔
      x ∈ M.inputIds := by
  have hitem : ∀ i ∈ M.inputIds, ∀ t,
      shopItemTup st.shopItems i = some t →
      ∃ s ∈ st.shopItems, s.id = i ∧ s.userId = userId ∧
        s.shopId = order.shopId ∧ s.tup = t := by
    intro i hi t htup
    obtain ⟨s', hs'mem, hs'id, hs'user, hs'shop⟩ := hMitems i hi
    have hfound := find_shopItem_by_id st.shopItems i s' hIdNodup hs'mem hs'id
    unfold shopItemTup at htup
    rw [hfound] at htup
    have : s'.tup = t := by simpa using htup
    exact ⟨s', hs'mem, hs'id, hs'user, hs'shop, this⟩
  have hex : ∀ t ∈ order.lineItems, ∃ s ∈ st.shopItems,
      s.shopId = order.shopId ∧ s.userId = userId ∧ s.tup = t := by
    intro t ht
    obtain ⟨i, hi, htup⟩ := hCover t ht
    obtain ⟨s, hsmem, -, hsuser, hsshop, hstup⟩ := hitem i hi t htup
    exact ⟨s, hsmem, hsshop, hsuser, hstup⟩
  obtain ⟨h1, h2, h3⟩ :=
    findShopItemsGo_all_found userId order.shopId order.lineItems st hex
  refine ⟨h1, h2, ?_⟩
  intro x
  rw [h3]
  constructor
  · rintro ⟨t, htmem, s, hfind, rfl⟩
    have hsmem := List.mem_of_find?_eq_some hfind
    have hsprop : s.shopId = order.shopId ∧ s.userId = userId ∧ s.tup = t := by
      simpa using List.find?_some hfind
    obtain ⟨i, hi, htup⟩ := hCover t htmem
    obtain ⟨s', hs'mem, hs'id, hs'user, hs'shop, hs'tup⟩ := hitem i hi t htup
    have : s = s' := hDedup s hsmem s' hs'mem
      (by rw [hsprop.1, hs'shop]) (by rw [hsprop.2.1, hs'user])
      (by rw [hsprop.2.2, hs'tup])
    rw [this, hs'id]
    exact hi
  · intro hx
    obtain ⟨t, htmem, htup⟩ := hOnlyT x hx
    obtain ⟨s', hs'mem, hs'id, hs'user, hs'shop, hs'tup⟩ :=
      hitem x hx t htup
    have hfindsome : (st.shopItems.find? fun s2 =>
        decide (s2.shopId = order.shopId ∧ s2.userId = userId ∧
          s2.tup = t)).isSome := by
      rw [List.find?_isSome]
      refine ⟨s', hs'mem, ?_⟩
      simp [hs'shop, hs'user, hs'tup]
    obtain ⟨s, hs⟩ := Option.isSome_iff_exists.mp hfindsome
    have hsmem := List.mem_of_find?_eq_some hs
    have hsprop : s.shopId = order.shopId ∧ s.userId = userId ∧ s.tup = t := by
      simpa using List.find?_some hs
    have heq : s = s' := hDedup s hsmem s' hs'mem
      (by rw [hsprop.1, hs'shop]) (by rw [hsprop.2.1, hs'user])
      (by rw [hsprop.2.2, hs'tup])
    exact ⟨t, htmem, s, hs, by rw [heq, hs'id]⟩

lemma findChannelItemsGo_nextId_le (userId : Nat) :
    ∀ (cs : List MCartItem) (st : MState),
      st.nextId ≤ (findChannelItemsGo userId cs st).1.nextId
  | [], st => Nat.le_refl _
  | c :: cs, st => by
    cases hfind : st.channelItems.find? fun x =>
        decide (x.channelId = c.channelId ∧ x.userId = userId ∧
          x.tup = c.tup) with
    | some x =>
      simp only [findChannelItemsGo, hfind]
      exact findChannelItemsGo_nextId_le userId cs st
    | none =>
      simp only [findChannelItemsGo, hfind]
      have h1 := findChannelItemsGo_nextId_le userId cs
        { st with
          channelItems := st.channelItems ++
            [⟨st.nextId, c.channelId, userId, c.tup, c.price⟩],
          nextId := st.nextId + 1 }
      have h2 : ({ st with
          channelItems := st.channelItems ++
            [⟨st.nextId, c.channelId, userId, c.tup, c.price⟩],
          nextId := st.nextId + 1 } : MState).nextId = st.nextId + 1 := rfl
      omega

lemma head?_eq_of_mem_of_all {α : Type} (l : List α) (a : α) (ha : a ∈ l)
    (hall : ∀ x ∈ l, x = a) : l.head? = some a := by
  cases l with
  | nil => exact absurd ha (List.not_mem_nil _)
  | cons b t =>
    have hb : b = a := hall b (List.mem_cons_self _ _)
    rw [List.head?_cons, hb]

/-- C10: when the caller owns exactly one Match whose input ShopItem-set
carries exactly the Order's LineItem tuples with input count equal to the
LineItem count — under the ShopItem-dedup, Match-uniqueness and fresh-id
invariants of the store — `matchOrder` deletes that Match and creates a
replacement with the same input set, raising no duplicate-input rejection,
and afterwards the owner has exactly one Match for that input set. -/
theorem matchOrder_replaces_recipe (st : MState) (userId : Nat)
    (order : MOrder) (M : MatchRow)
    (hIdNodup : (st.shopItems.map (·.id)).Nodup)
    (hDedup : ∀ s1 ∈ st.shopItems, ∀ s2 ∈ st.shopItems,
      s1.shopId = s2.shopId → s1.userId = s2.userId → s1.tup = s2.tup →
        s1 = s2)
    (hM : M ∈ st.matchRows) (hMuser : M.userId = userId)
    (hMlen : M.inputIds.length = order.lineItems.length)
    (hMitems : ∀ i ∈ M.inputIds, ∃ s ∈ st.shopItems,
      s.id = i ∧ s.userId = userId ∧ s.shopId = order.shopId)
    (hCover : ∀ t ∈ order.lineItems, ∃ i ∈ M.inputIds,
      shopItemTup st.shopItems i = some t)
    (hOnlyT : ∀ i ∈ M.inputIds, ∃ t ∈ order.lineItems,
      shopItemTup st.shopItems i = some t)
    (hQualUnique : ∀ m ∈ st.matchRows, m.userId = userId →
      coversLineItems st.shopItems m order.lineItems = true →
      m.inputIds.length = order.lineItems.length → m = M)
    (hSetUnique : ∀ m ∈ st.matchRows,
      sameIdSet m.inputIds M.inputIds = true → m.id = M.id)
    (hAllNodup : ∀ m ∈ st.matchRows, m.inputIds.Nodup)
    (hFresh : ∀ m ∈ st.matchRows, m.id < st.nextId) :
    ∃ st2 newId, matchOrder st userId order = Except.ok (st2, newId) ∧
      M.id ∉ st2.matchRows.map (·.id) ∧
      (∃ mNew ∈ st2.matchRows, mNew.id = newId ∧ mNew.userId = userId ∧
        sameIdSet mNew.inputIds M.inputIds = true) ∧
      (st2.matchRows.filter fun m =>
        decide (m.userId = userId) && sameIdSet m.inputIds M.inputIds).length
        = 1 := by
  obtain ⟨hstA, hlenA, hmemA⟩ :=
    shopConnect_set st userId order M hIdNodup hDedup hMitems hCover hOnlyT
  obtain ⟨hpresShop, hpresMatch⟩ :=
    findChannelItemsGo_preserves userId order.cartItems st
  have hnextle := findChannelItemsGo_nextId_le userId order.cartItems st
  have hMcov : coversLineItems st.shopItems M order.lineItems = true := by
    unfold coversLineItems
    rw [List.all_eq_true]
    intro t ht
    obtain ⟨i, hi, htup⟩ := hCover t ht
    exact List.any_eq_true.mpr ⟨i, hi, by simpa using htup⟩
  have hfiltall : ∀ m ∈ (qualifyingMatches st.shopItems st.matchRows userId
      order.lineItems).filter
        (fun m => decide (m.inputIds.length = order.lineItems.length)),
      m = M := by
    intro m hm
    have h1 := List.mem_filter.mp hm
    have h2 := List.mem_filter.mp h1.1
    have h3 := h2.2
    rw [Bool.and_eq_true] at h3
    exact hQualUnique m h2.1 (of_decide_eq_true h3.1) h3.2
      (of_decide_eq_true h1.2)
  have hMin : M ∈ (qualifyingMatches st.shopItems st.matchRows userId
      order.lineItems).filter
        (fun m => decide (m.inputIds.length = order.lineItems.length)) := by
    refine List.mem_filter.mpr ⟨List.mem_filter.mpr ⟨hM, ?_⟩, ?_⟩
    · rw [Bool.and_eq_true]
      exact ⟨by simpa using hMuser, hMcov⟩
    · simpa using hMlen
  have hfilt : ((qualifyingMatches st.shopItems st.matchRows userId
      order.lineItems).filter
        (fun m => decide (m.inputIds.length = order.lineItems.length))).head?
      = some M :=
    head?_eq_of_mem_of_all _ M hMin hfiltall
  have hchk : checkForDuplicateM
      (st.matchRows.filter fun x => decide (x.id ≠ M.id))
      (findShopItemsGo userId order.shopId order.lineItems st).2 = false := by
    rw [Bool.eq_false_iff]
    intro habs
    obtain ⟨m, hmmem, hmprop⟩ := List.any_eq_true.mp habs
    have hmm1 := List.mem_filter.mp hmmem
    have hmm2 := List.mem_filter.mp hmm1.1
    have hmid : m.id ≠ M.id := of_decide_eq_true hmm2.2
    rw [Bool.and_eq_true] at hmprop
    obtain ⟨hlen2, hsub2⟩ := hmprop
    have hlen3 : m.inputIds.length =
        (findShopItemsGo userId order.shopId order.lineItems st).2.length :=
      of_decide_eq_true hlen2
    have hsub3 : m.inputIds ⊆
        (findShopItemsGo userId order.shopId order.lineItems st).2 := by
      intro i hi
      exact of_decide_eq_true (List.all_eq_true.mp hsub2 i hi)
    have hperm : List.Perm m.inputIds
        (findShopItemsGo userId order.shopId order.lineItems st).2 :=
      (List.subperm_of_subset (hAllNodup m hmm2.1) hsub3).perm_of_length_le
        (by omega)
    have hiff : ∀ x, x ∈ m.inputIds ↔ x ∈ M.inputIds := by
      intro x
      rw [hperm.mem_iff]
      exact hmemA x
    exact hmid (hSetUnique m hmm2.1 ((sameIdSet_iff _ _).mpr hiff))
  have hrun : matchOrder st userId order =
      Except.ok
        ({ (findChannelItemsGo userId order.cartItems st).1 with
           matchRows :=
             (st.matchRows.filter fun x => decide (x.id ≠ M.id)) ++
             [⟨(findChannelItemsGo userId order.cartItems st).1.nextId,
               userId,
               (findShopItemsGo userId order.shopId order.lineItems st).2,
               (findChannelItemsGo userId order.cartItems st).2⟩],
           nextId :=
             (findChannelItemsGo userId order.cartItems st).1.nextId + 1 },
         (findChannelItemsGo userId order.cartItems st).1.nextId) := by
    simp only [matchOrder, hstA, hpresShop, hpresMatch, hfilt, hchk,
      Bool.and_false, Bool.false_eq_true, if_false, ite_false]
  refine ⟨_, _, hrun, ?_, ?_, ?_⟩
  · intro habs
    obtain ⟨m, hmmem, hmid⟩ := List.mem_map.mp habs
    rcases List.mem_append.mp hmmem with hmf | hmn
    · have := List.mem_filter.mp hmf
      exact of_decide_eq_true this.2 hmid
    · have hmeq : m = ⟨(findChannelItemsGo userId order.cartItems st).1.nextId,
          userId,
          (findShopItemsGo userId order.shopId order.lineItems st).2,
          (findChannelItemsGo userId order.cartItems st).2⟩ := by
        simpa using hmn
      have hMlt := hFresh M hM
      rw [hmeq] at hmid
      simp only at hmid
      omega
  · refine ⟨⟨(findChannelItemsGo userId order.cartItems st).1.nextId,
      userId,
      (findShopItemsGo userId order.shopId order.lineItems st).2,
      (findChannelItemsGo userId order.cartItems st).2⟩,
      List.mem_append_right _ (List.mem_cons_self _ _), rfl, rfl, ?_⟩
    exact (sameIdSet_iff _ _).mpr hmemA
  · rw [List.filter_append]
    have h1 : (st.matchRows.filter fun x => decide (x.id ≠ M.id)).filter
        (fun m => decide (m.userId = userId) &&
          sameIdSet m.inputIds M.inputIds) = [] := by
      rw [List.filter_eq_nil_iff]
      intro m hm
      have hmm := List.mem_filter.mp hm
      intro hp
      rw [Bool.and_eq_true] at hp
      have := hSetUnique m hmm.1 hp.2
      exact of_decide_eq_true hmm.2 this
    rw [h1]
    have h2 : (([⟨(findChannelItemsGo userId order.cartItems st).1.nextId,
        userId,
        (findShopItemsGo userId order.shopId order.lineItems st).2,
        (findChannelItemsGo userId order.cartItems st).2⟩] :
          List MatchRow).filter
        (fun m => decide (m.userId = userId) &&
          sameIdSet m.inputIds M.inputIds)).length = 1 := by
      have hset : sameIdSet (findShopItemsGo userId order.shopId
          order.lineItems st).2 M.inputIds = true :=
        (sameIdSet_iff _ _).mpr hmemA
      simp [List.filter, hset]
    rw [List.nil_append]
    exact h2

/-- Concrete store for the C10 witness: the caller (user 9) owns one Match
pairing the two ShopItems of shop 5 with a ChannelItem of channel 6. -/
def c10state : MState :=
  { shopItems := [⟨1, 5, 9, ⟨"p1", "v1", 1⟩⟩, ⟨2, 5, 9, ⟨"p2", "v2", 1⟩⟩],
    channelItems := [⟨3, 6, 9, ⟨"q1", "w1", 1⟩, "10"⟩],
    matchRows := [⟨4, 9, [1, 2], [3]⟩],
    nextId := 100 }

/-- Concrete order for the C10 witness. -/
def c10order : MOrder :=
  { shopId := 5,
    lineItems := [⟨"p1", "v1", 1⟩, ⟨"p2", "v2", 1⟩],
    cartItems := [⟨6, ⟨"q1", "w1", 1⟩, "10"⟩] }

/-- The existing Match replaced in the C10 witness. -/
def c10match : MatchRow := ⟨4, 9, [1, 2], [3]⟩

/-- Witness for the C10 theorem at a concrete input. -/
theorem matchOrder_replaces_recipe_witness :
    ∃ st2 newId, matchOrder c10state 9 c10order = Except.ok (st2, newId) ∧
      c10match.id ∉ st2.matchRows.map (·.id) ∧
      (∃ mNew ∈ st2.matchRows, mNew.id = newId ∧ mNew.userId = 9 ∧
        sameIdSet mNew.inputIds c10match.inputIds = true) ∧
      (st2.matchRows.filter fun m =>
        decide (m.userId = 9) &&
          sameIdSet m.inputIds c10match.inputIds).length = 1 :=
  matchOrder_replaces_recipe c10state 9 c10order c10match
    (by decide) (by decide) (by decide) (by decide) (by decide) (by decide)
    (by decide) (by decide) (by decide) (by decide) (by decide) (by decide)

end MOrd

end Openship
